import Mathlib

/-!
Verification development for the `llm-digest` repository.

This file gives a shallow embedding of the URL classification, identifier
extraction, prompt selection, model discovery/prioritization and summary
invocation code of the repository (`src/summarizers.py`, `src/llm_discovery.py`,
`src/url_summarizer.py`, `src/utils.py`), together with theorems settling the
frozen claims about that code.

Modelling conventions:
- Python strings are Lean `String`s; the character-level functions work on
  `List Char` (`String.data`).
- Python `str.lower` is modelled with Lean's ASCII `Char.toLower`; the model
  is exact for ASCII data (all URLs, model names and rule keys in scope).
- `urllib.parse.urlparse` is modelled by `pyUrlparse` below, following the
  CPython algorithm (scheme detection, `//`-netloc, fragment-before-query
  splitting, `;`-params splitting).  Bracketed (IPv6) netlocs are modelled
  as a parse failure (`none`), matching the `ValueError` branch for
  mismatched brackets; full `ipaddress` validation of bracketed hosts is
  not modelled.  CPython's removal of tab/CR/LF characters and stripping of
  leading C0-control/space characters is included.
- Percent-decoding (`urllib.parse.unquote_plus`) is modelled byte-wise
  (a `%XX` escape becomes the character with that code); this is exact for
  ASCII escapes.  UTF-8 recombination of multi-byte escapes is not modelled.
- Subprocess execution is abstracted by the `SubprocResult` type: the code
  under verification is a pure function of the subprocess outcome.
-/

/-- Characters stripped by Python `str.strip()` (ASCII whitespace). -/
def isPySpace (c : Char) : Bool :=
  c = ' ' || c = '\t' || c = '\n' || c = '\r' || c = '\x0b' || c = '\x0c'

/-- Python `str.strip()` on the character list. -/
def pyStripL (cs : List Char) : List Char :=
  ((cs.dropWhile isPySpace).reverse.dropWhile isPySpace).reverse

/-- Python `str.strip()`. -/
def pyStrip (s : String) : String := String.mk (pyStripL s.data)

/-- Python `str.lower()` (ASCII model). -/
def strLower (s : String) : String := String.mk (s.data.map Char.toLower)

/-- Python `a.startswith(b)`. -/
def startsWithStr (s pre : String) : Bool := pre.data.isPrefixOf s.data

/-- Python `a.endswith(b)`. -/
def endsWithStr (s suf : String) : Bool := suf.data.isSuffixOf s.data

/-- Python `needle in hay` on character lists (substring containment). -/
def containsSubL (needle : List Char) : List Char → Bool
  | [] => needle.isEmpty
  | c :: t => needle.isPrefixOf (c :: t) || containsSubL needle t

/-- Python `needle in hay` for strings. -/
def containsSub (hay needle : String) : Bool := containsSubL needle.data hay.data

/-- Index of the first occurrence of `needle` in `cs`, if any. -/
def findSubIdx (needle : List Char) : List Char → Option Nat
  | [] => if needle.isEmpty then some 0 else none
  | c :: t =>
    if needle.isPrefixOf (c :: t) then some 0
    else (findSubIdx needle t).map (· + 1)

/-- Python `s.split(sep, 1)` restricted to the split-once result: `none` when
the separator does not occur, otherwise the parts before and after its first
occurrence. -/
def splitOnceL (sep : List Char) (cs : List Char) : Option (List Char × List Char) :=
  (findSubIdx sep cs).map fun i => (cs.take i, cs.drop (i + sep.length))

/-- Maximal nonempty run of characters satisfying `p` at the front:
`some (run, rest)`, or `none` if the first character fails `p`. -/
def takeWhile1 (p : Char → Bool) (cs : List Char) : Option (List Char × List Char) :=
  let run := cs.takeWhile p
  if run.isEmpty then none else some (run, cs.drop run.length)

/-- Python `s.split(sep)` for a one-character separator, structurally
recursive so that concrete instances compute by reduction. -/
def splitOnChar (sep : Char) : List Char → List (List Char)
  | [] => [[]]
  | c :: t =>
    if c = sep then [] :: splitOnChar sep t
    else
      match splitOnChar sep t with
      | [] => [[c]]
      | h :: rest => (c :: h) :: rest

/-- Python `s.split(", ")` (the alias-list separator), scanning left to
right for non-overlapping occurrences. -/
def splitOnCommaSpace : List Char → List (List Char)
  | [] => [[]]
  | ',' :: ' ' :: t => [] :: splitOnCommaSpace t
  | c :: t =>
    match splitOnCommaSpace t with
    | [] => [[c]]
    | h :: rest => (c :: h) :: rest

/-- Result of `urllib.parse.urlparse`: the components used by the code. -/
structure UrlParts where
  scheme : String
  netloc : String
  path : String
  query : String
  fragment : String
  deriving Repr, DecidableEq

/-- Characters allowed in a URL scheme after the first (CPython
`scheme_chars`). -/
def isSchemeChar (c : Char) : Bool :=
  c.isAlpha || c.isDigit || c = '+' || c = '-' || c = '.'

/-- C0 control characters and space, stripped from the front of a URL by
CPython `urlsplit`. -/
def isC0OrSpace (c : Char) : Bool := c.val ≤ 0x20

/-- CPython `urlsplit` on the character list, returning `none` where CPython
raises `ValueError` (mismatched or bracketed netloc brackets; see header). -/
def pyUrlsplitL (cs0 : List Char) : Option UrlParts :=
  let cs1 := cs0.dropWhile isC0OrSpace
  let cs := cs1.filter (fun c => !(c = '\t' || c = '\r' || c = '\n'))
  let pre := cs.takeWhile (· ≠ ':')
  let hasScheme :=
    pre.length < cs.length && !pre.isEmpty &&
      (match pre.head? with | some c => c.isAlpha | none => false) &&
      pre.all isSchemeChar
  let scheme := if hasScheme then pre.map Char.toLower else []
  let rest := if hasScheme then cs.drop (pre.length + 1) else cs
  let hasNetloc := ['/', '/'].isPrefixOf rest
  let netloc := if hasNetloc then
    (rest.drop 2).takeWhile (fun c => !(c = '/' || c = '?' || c = '#')) else []
  let rest := if hasNetloc then (rest.drop 2).drop netloc.length else rest
  if netloc.contains '[' || netloc.contains ']' then none
  else
    let (rest, fragment) :=
      match splitOnceL ['#'] rest with
      | some (a, b) => (a, b)
      | none => (rest, [])
    let (path, query) :=
      match splitOnceL ['?'] rest with
      | some (a, b) => (a, b)
      | none => (rest, [])
    some ⟨String.mk scheme, String.mk netloc, String.mk path,
          String.mk query, String.mk fragment⟩

/-- CPython `_splitparams`: split `;`-parameters from the last path segment. -/
def splitParamsL (path : List Char) : List Char :=
  if path.contains '/' then
    let lastSeg := (path.reverse.takeWhile (· ≠ '/')).reverse
    match findSubIdx [';'] lastSeg with
    | some i => path.take (path.length - lastSeg.length + i)
    | none => path
  else
    match splitOnceL [';'] path with
    | some (a, _) => a
    | none => path

/-- CPython `urlparse` (components used by the code: `urlsplit` plus the
params split on the path). -/
def pyUrlparse (url : String) : Option UrlParts :=
  (pyUrlsplitL url.data).map fun r =>
    { r with path := String.mk (splitParamsL r.path.data) }

/-- Hexadecimal digit test (Python `string.hexdigits`). -/
def isHexDigitCh (c : Char) : Bool :=
  c.isDigit || ('a' ≤ c && c ≤ 'f') || ('A' ≤ c && c ≤ 'F')

/-- Value of one hexadecimal digit. -/
def hexVal (c : Char) : Nat := c.toNat % 16 + if c.isAlpha then 9 else 0

/-- Python `urllib.parse.unquote` on the character list (byte-wise model of
percent-decoding; exact for ASCII escapes): a `%` followed by two hex digits
decodes to that character, any other `%` is kept and scanning resumes at the
following character, exactly as CPython's segment-wise decoder behaves. -/
def unquoteL : List Char → List Char
  | [] => []
  | c :: h1 :: h2 :: t2 =>
    if c = '%' && isHexDigitCh h1 && isHexDigitCh h2 then
      Char.ofNat (16 * hexVal h1 + hexVal h2) :: unquoteL t2
    else c :: unquoteL (h1 :: h2 :: t2)
  | c :: t => c :: unquoteL t

/-- Python `urllib.parse.unquote_plus` as used by `parse_qs`. -/
def unquotePlus (s : String) : String :=
  String.mk (unquoteL (s.data.map fun c => if c = '+' then ' ' else c))

/-- CPython `parse_qsl` with the default arguments: split the query on `&`,
split each field on the first `=`, skip empty fields, fields without `=` and
fields with an empty value, and percent-decode names and values. -/
def parse_qsl (query : String) : List (String × String) :=
  (splitOnChar '&' query.data).filterMap fun field =>
    if field.isEmpty then none
    else match splitOnceL ['='] field with
      | none => none
      | some (n, v) =>
        if v.isEmpty then none
        else some (unquotePlus (String.mk n), unquotePlus (String.mk v))

/-- Python `parse_qs(query)[key][0]` guarded by `key in query`: the first
value bound to `key`, if any. -/
def parse_qs_first (query key : String) : Option String :=
  ((parse_qsl query).find? fun kv => kv.1 = key).map (·.2)

/-- Strip a literal prefix, returning the remainder. -/
def stripPre (pre : String) (cs : List Char) : Option (List Char) :=
  if pre.data.isPrefixOf cs then some (cs.drop pre.data.length) else none

/-- Configuration dataclass `SummaryConfig` (src/models.py). -/
structure SummaryConfig where
  model : String := "llama3.2:3b"
  format : String := "bullet"
  timeout : Int := 120
  system_prompt : Option String := none
  debug : Bool := false
  deriving Repr, DecidableEq

/-- Summary record dataclass `SummaryRecord` (src/database.py). -/
structure SummaryRecord where
  id : Option Int := none
  url_id : Int := 0
  content : String := ""
  model_used : String := ""
  format_type : String := ""
  fragment_used : Option String := none
  created_at : Option String := none
  deriving Repr, DecidableEq

/-- Model record dataclass `LLMModel` (src/models.py). -/
structure LLMModel where
  name : String
  provider : String
  aliases : List String
  is_chat : Bool := true
  is_experimental : Bool := false
  priority : Int := 100
  deriving Repr, DecidableEq

/-- Outcome of one `subprocess.run` invocation, abstracting the external
tool: normal completion with exit code and captured streams, or one of the
exception classes caught by the code. -/
inductive SubprocResult where
  | completed (returncode : Int) (stdout stderr : String)
  | timedOut
  | fileNotFound
  | otherError (msg : String)
  deriving Repr, DecidableEq

namespace Summarizers

/-- Fragment mappings of `LLMSummaryService.__init__` (src/summarizers.py). -/
def fragment_mappings : List (String × String) :=
  [("reddit.com", "llm-fragments-reddit"),
   ("news.ycombinator.com", "llm-hacker-news"),
   ("youtube.com", "llm-fragments-youtube"),
   ("youtu.be", "llm-fragments-youtube")]

/-- Characters of a YouTube video id, the class `[0-9A-Za-z_-]`. -/
def isYTIdChar (c : Char) : Bool := c.isAlphanum || c = '_' || c = '-'

/-- Take exactly `n` characters satisfying `p` (the regex piece `p{n}`):
`some (run, rest)` only when the first `n` characters all satisfy `p`. -/
def takeExact (p : Char → Bool) : Nat → List Char → Option (List Char × List Char)
  | 0, cs => some ([], cs)
  | _ + 1, [] => none
  | n + 1, c :: t =>
    if p c then (takeExact p n t).map (fun pr => (c :: pr.1, pr.2)) else none

/-- Left-to-right scan of `re.search`: the attempt `att` at the leftmost
position where it succeeds. -/
def searchAt (att : List Char → Option (List Char)) : List Char → Option (List Char)
  | [] => att []
  | c :: t =>
    match att (c :: t) with
    | some r => some r
    | none => searchAt att t

/-- Attempt of pattern 1 of `extract_youtube_id`,
`(?:v=|\/)([0-9A-Za-z_-]{11}).*`, at one position (the trailing `.*` always
matches). -/
def ytPat1At (cs : List Char) : Option (List Char) :=
  match stripPre "v=" cs with
  | some t => (takeExact isYTIdChar 11 t).map (·.1)
  | none =>
    match stripPre "/" cs with
    | some t => (takeExact isYTIdChar 11 t).map (·.1)
    | none => none

/-- Attempt of pattern 2, `(?:embed\/)([0-9A-Za-z_-]{11})`, at one position. -/
def ytPat2At (cs : List Char) : Option (List Char) :=
  match stripPre "embed/" cs with
  | some t => (takeExact isYTIdChar 11 t).map (·.1)
  | none => none

/-- Attempt of pattern 3, `(?:youtu\.be\/)([0-9A-Za-z_-]{11})`, at one
position. -/
def ytPat3At (cs : List Char) : Option (List Char) :=
  match stripPre "youtu.be/" cs with
  | some t => (takeExact isYTIdChar 11 t).map (·.1)
  | none => none

/-- Attempt of pattern 4, `youtube\.com/watch\?v=([^&]+)`, at one position. -/
def ytPat4At (cs : List Char) : Option (List Char) :=
  match stripPre "youtube.com/watch?v=" cs with
  | some t => (takeWhile1 (· ≠ '&') t).map (·.1)
  | none => none

/-- Attempt of pattern 5, `youtube\.com/v/([^?]+)`, at one position. -/
def ytPat5At (cs : List Char) : Option (List Char) :=
  match stripPre "youtube.com/v/" cs with
  | some t => (takeWhile1 (· ≠ '?') t).map (·.1)
  | none => none

/-- Regex battery of `extract_youtube_id` (src/summarizers.py lines 75-88):
the five patterns tried in order, each with `re.search` leftmost-match
semantics. -/
def ytRegexSearch (cs : List Char) : Option (List Char) :=
  match searchAt ytPat1At cs with
  | some g => some g
  | none =>
  match searchAt ytPat2At cs with
  | some g => some g
  | none =>
  match searchAt ytPat3At cs with
  | some g => some g
  | none =>
  match searchAt ytPat4At cs with
  | some g => some g
  | none => searchAt ytPat5At cs

/-- Method `LLMSummaryService.extract_youtube_id` (src/summarizers.py lines
73-106): the regex battery, then the structured `urlparse` fallback. -/
def extract_youtube_id (url : String) : Option String :=
  match ytRegexSearch url.data with
  | some g => some (String.mk g)
  | none =>
    match pyUrlparse url with
    | none => none
    | some r =>
      if (r.netloc = "www.youtube.com" || r.netloc = "youtube.com")
          && r.path = "/watch" then
        parse_qs_first r.query "v"
      else if r.netloc = "youtu.be" then
        if startsWithStr r.path "/" then some (String.mk (r.path.data.drop 1))
        else none
      else none

/-- Characters of a Reddit post id, the class `[a-zA-Z0-9_]`. -/
def redditIdChar (c : Char) : Bool := c.isAlphanum || c = '_'

/-- Part of the Reddit regex after the literal `reddit.com/`: the alternation
`(r/[^/]+/comments/|comments/)` followed by the id group `([a-zA-Z0-9_]+)`
(the trailing `.*` always matches).  Inside the first alternative the greedy
`[^/]+` is forced to the maximal run, since the following literal starts with
`/`. -/
def redditAfterDomain (t : List Char) : Option (List Char) :=
  let viaR : Option (List Char) :=
    match stripPre "r/" t with
    | some t1 =>
      match takeWhile1 (· ≠ '/') t1 with
      | some (_, t2) =>
        match stripPre "/comments/" t2 with
        | some t3 => (takeWhile1 redditIdChar t3).map (·.1)
        | none => none
      | none => none
    | none => none
  match viaR with
  | some g => some g
  | none =>
    match stripPre "comments/" t with
    | some t3 => (takeWhile1 redditIdChar t3).map (·.1)
    | none => none

/-- Optional scheme `(https?://)?` of the anchored URL regexes.  The regex
backtracks to the scheme-absent branch only when the consumed branch fails
later; since a string starting with `http://` or `https://` can never also
start with the following literal (`www.` or a domain), the committed choice
below is extensionally equal to the backtracking search. -/
def stripScheme (cs : List Char) : List Char :=
  match stripPre "https://" cs with
  | some t => t
  | none =>
    match stripPre "http://" cs with
    | some t => t
    | none => cs

/-- Optional `(www\.)?` group; committed choice, equal to backtracking for
the same reason as `stripScheme`. -/
def stripWww (cs : List Char) : List Char :=
  match stripPre "www." cs with
  | some t => t
  | none => cs

/-- Anchored regex of `url_patterns["reddit"]`,
`^(https?://)?(www\.)?reddit\.com/(r/[^/]+/comments/|comments/)([a-zA-Z0-9_]+).*`,
under `.match` semantics, returning group 4. -/
def redditRegexMatch (cs : List Char) : Option (List Char) :=
  match stripPre "reddit.com/" (stripWww (stripScheme cs)) with
  | some t => redditAfterDomain t
  | none => none

/-- Method `LLMSummaryService.extract_reddit_id` (src/summarizers.py lines
108-131): the anchored regex, then the path-segment fallback. -/
def extract_reddit_id (url : String) : Option String :=
  match redditRegexMatch url.data with
  | some g => some (String.mk g)
  | none =>
    match pyUrlparse url with
    | none => none
    | some r =>
      let parts := (splitOnChar '/' r.path.data).map String.mk
      if parts.length ≥ 5 && parts.getD 1 "" = "r" && parts.getD 3 "" = "comments" then
        some (parts.getD 4 "")
      else none

/-- Anchored regex of `url_patterns["hacker_news"]`,
`^(https?://)?(www\.)?news\.ycombinator\.com/item\?id=([0-9]+).*`, under
`.match` semantics, returning group 3. -/
def hnRegexMatch (cs : List Char) : Option (List Char) :=
  match stripPre "news.ycombinator.com/item?id=" (stripWww (stripScheme cs)) with
  | some t => (takeWhile1 Char.isDigit t).map (·.1)
  | none => none

/-- Method `LLMSummaryService.extract_hn_id` (src/summarizers.py lines
133-152): the anchored regex, then the query-string fallback. -/
def extract_hn_id (url : String) : Option String :=
  match hnRegexMatch url.data with
  | some g => some (String.mk g)
  | none =>
    match pyUrlparse url with
    | none => none
    | some r => parse_qs_first r.query "id"

/-- Host normalization of `detect_url_type` (src/summarizers.py lines
160-165): lower-case the netloc and strip one leading `www.`. -/
def routeDomain (r : UrlParts) : String :=
  let domain0 := strLower r.netloc
  if startsWithStr domain0 "www." then String.mk (domain0.data.drop 4) else domain0

/-- Classification chain of `detect_url_type` (src/summarizers.py lines
169-200) given the normalized domain: build the
`(fragment_name, fragment_identifier)` pair.  Python truthiness of the
extracted id (`if post_id:`) makes an empty extracted id fall back exactly
like a missing one. -/
def detectWithDomain (url : String) (domain : String) : Option (String × String) :=
  if domain = "reddit.com" || endsWithStr domain ".reddit.com" then
      match extract_reddit_id url with
      | some pid =>
        if pid ≠ "" then
          some ((fragment_mappings.lookup "reddit.com").getD "", "reddit:" ++ pid)
        else some ((fragment_mappings.lookup "reddit.com").getD "", "reddit:" ++ url)
      | none => some ((fragment_mappings.lookup "reddit.com").getD "", "reddit:" ++ url)
    else if domain = "youtube.com" || endsWithStr domain ".youtube.com" then
      match extract_youtube_id url with
      | some vid =>
        if vid ≠ "" then
          some ((fragment_mappings.lookup "youtube.com").getD "", "youtube:" ++ vid)
        else none
      | none => none
    else if domain = "youtu.be" then
      match extract_youtube_id url with
      | some vid =>
        if vid ≠ "" then
          some ((fragment_mappings.lookup "youtu.be").getD "", "youtube:" ++ vid)
        else none
      | none => none
    else if domain = "news.ycombinator.com" then
      match extract_hn_id url with
      | some iid =>
        if iid ≠ "" then
          some ((fragment_mappings.lookup "news.ycombinator.com").getD "", "hn:" ++ iid)
        else some ((fragment_mappings.lookup "news.ycombinator.com").getD "", "hn:" ++ url)
      | none => some ((fragment_mappings.lookup "news.ycombinator.com").getD "", "hn:" ++ url)
    else none

/-- Method `LLMSummaryService.detect_url_type` (src/summarizers.py lines
154-204): parse the URL (exceptions yield `none`), compute the lower-cased
`www.`-stripped host, then classify. -/
def detect_url_type (url : String) : Option (String × String) :=
  match pyUrlparse url with
  | none => none
  | some r => detectWithDomain url (routeDomain r)

/-- Error message of the unroutable-URL branch of `generate_summary`. -/
def supportedSitesMsg : String :=
  "No matching fragment found. Supported sites: reddit.com, news.ycombinator.com, youtube.com, youtu.be"

/-- Method `LLMSummaryService.generate_summary` (src/summarizers.py lines
214-278) as a pure function of the routed URL and the subprocess outcome:
route the URL, then classify the single subprocess invocation into the
`(success, summary_record, error_message)` triple.  Every caught exception
class becomes a `(False, None, message)` result; the function is total, so
no exception escapes. -/
def generate_summary (cfg : SummaryConfig) (url : String) (proc : SubprocResult) :
    Bool × Option SummaryRecord × Option String :=
  match detect_url_type url with
  | none => (false, none, some supportedSitesMsg)
  | some (fragment_name, _fragment_identifier) =>
    match proc with
    | .completed rc stdout stderr =>
      if rc = 0 then
        (true,
         some { url_id := 0, content := pyStrip stdout, model_used := cfg.model,
                format_type := cfg.format, fragment_used := some fragment_name },
         none)
      else (false, none, some ("LLM command failed: " ++ stderr))
    | .timedOut =>
      (false, none, some ("Request timed out after " ++ toString cfg.timeout ++ " seconds"))
    | .fileNotFound =>
      (false, none, some "\x27llm\x27 command not found. Install with: uv add llm")
    | .otherError m => (false, none, some ("Unexpected error: " ++ m))

end Summarizers

namespace Discovery

/-- Word characters of the regex class `\w` (ASCII model). -/
def isWordChar (c : Char) : Bool := c.isAlphanum || c = '_'

/-- Match of `\b<needle>\b` at the front of `cs` given whether the previous
character was a word character (the needle consists of word characters, so
`\b` holds exactly at a word/non-word transition). -/
def wordAtFront (needle : List Char) (cs : List Char) : Bool :=
  needle.isPrefixOf cs &&
    (match cs.drop needle.length with
     | [] => true
     | c :: _ => !isWordChar c)

/-- Scan for `re.search(r"\b" + needle + r"\b", hay)`, tracking whether the
previous character was a word character. -/
def containsWordFrom (needle : List Char) (prevIsWord : Bool) : List Char → Bool
  | [] => !prevIsWord && wordAtFront needle []
  | c :: t =>
    (!prevIsWord && wordAtFront needle (c :: t)) || containsWordFrom needle (isWordChar c) t

/-- Whole-word containment used by the `is_experimental` derivation. -/
def containsWord (hay needle : String) : Bool := containsWordFrom needle.data false hay.data

/-- Dictionary `self.priority_rules` of `LLMModelDiscovery.__init__`
(src/llm_discovery.py lines 42-65), in insertion order. -/
def priority_rules : List (String × Int) :=
  [("Ollama", 5), ("OpenAI Chat", 10), ("GeminiPro", 20), ("OpenAI Completion", 30),
   ("chat_bonus", -5), ("experimental_penalty", 50),
   ("llama3.2", -15), ("llama3.1", -12), ("mistral", -10), ("codellama", -8),
   ("llama2", -6),
   ("gpt-4o", -10), ("gpt-4o-mini", -8), ("gpt-4", -6), ("gpt-3.5-turbo", -4),
   ("gemini-2.0-flash", -3), ("gemini-1.5-pro-latest", -2)]

/-- Stable insert for Python `sorted(..., key=len(key), reverse=True)`:
an element goes before the first one whose key is not longer, so
equal-length keys keep their original order. -/
def insertLenDesc (x : String × Int) : List (String × Int) → List (String × Int)
  | [] => [x]
  | y :: ys =>
    if y.1.length ≤ x.1.length then x :: y :: ys else y :: insertLenDesc x ys

/-- Stable sort by descending key length (Python `sorted` with `key=len`,
`reverse=True`). -/
def sortLenDesc : List (String × Int) → List (String × Int)
  | [] => []
  | x :: xs => insertLenDesc x (sortLenDesc xs)

/-- Method `LLMModelDiscovery._calculate_priority` (src/llm_discovery.py lines
141-172, duplicated verbatim in src/services.py lines 154-185): provider base
weight, chat bonus, experimental penalty, then the negative-weight rule keys
occurring in the name sorted by descending key length.  The source contains
the `for _model_key, bonus in sorted_model_bonuses: priority += bonus; break`
loop twice in a row, so the head bonus is added twice. -/
def calculate_priority (provider model_name : String)
    (is_chat is_experimental : Bool) : Int :=
  let p0 := (priority_rules.lookup provider).getD 100
  let p1 := if is_chat then p0 + (priority_rules.lookup "chat_bonus").getD 0 else p0
  let p2 :=
    if is_experimental then p1 + (priority_rules.lookup "experimental_penalty").getD 0
    else p1
  let sorted_model_bonuses :=
    sortLenDesc (priority_rules.filter fun kv => kv.2 < 0 && containsSub model_name kv.1)
  let p3 :=
    match sorted_model_bonuses.head? with
    | some kv => p2 + kv.2
    | none => p2
  match sorted_model_bonuses.head? with
  | some kv => p3 + kv.2
  | none => p3

/-- Model-part parse of `_parse_models_output`: the regex
`^(.*?)(?: \(aliases: (.*)\))?$` under `.match` semantics.  The lazy first
group makes the aliases clause start at the first occurrence of
` (aliases: `; the clause requires the string to end with `)`.  The regex
always matches, so the result is the name part plus an optional aliases
string. -/
def parseAliases (model_part : String) : String × Option String :=
  match findSubIdx " (aliases: ".data model_part.data with
  | some k =>
    if endsWithStr model_part ")" && k + 12 ≤ model_part.length then
      (String.mk (model_part.data.take k),
       some (String.mk ((model_part.data.drop (k + 11)).dropLast)))
    else (model_part, none)
  | none => (model_part, none)

/-- Keywords whose whole-word occurrence in the lower-cased name marks a
model as experimental. -/
def experimentalKeywords : List String :=
  ["preview", "experimental", "exp", "thinking", "test"]

/-- Per-line body of `LLMModelDiscovery._parse_models_output`
(src/llm_discovery.py lines 88-137): `none` for skipped lines, otherwise the
single record contributed by the line. -/
def parseLine (line0 : String) : Option LLMModel :=
  let line := pyStrip line0
  if line = "" then none
  else if startsWithStr line "Default:" then none
  else
    match splitOnceL [':', ' '] line.data with
    | none => none
    | some (p, rest) =>
      let provider := pyStrip (String.mk p)
      let model_part := pyStrip (String.mk rest)
      let (model_name0, aliases_str) := parseAliases model_part
      let model_name := pyStrip model_name0
      let aliases :=
        match aliases_str with
        | some s =>
          if s ≠ "" then (splitOnCommaSpace s.data).map (fun a => pyStrip (String.mk a))
          else []
        | none => []
      let is_chat := endsWithStr provider "Chat" || !(endsWithStr provider "Completion")
      let lowName := strLower model_name
      let is_experimental := experimentalKeywords.any fun kw => containsWord lowName kw
      some { name := model_name, provider := provider, aliases := aliases,
             is_chat := is_chat, is_experimental := is_experimental,
             priority := calculate_priority provider model_name is_chat is_experimental }

/-- Method `LLMModelDiscovery._parse_models_output` (src/llm_discovery.py
lines 84-139): strip the output, split into lines, and collect one record
per non-skipped line.  Total by construction: malformed input only yields
fewer records. -/
def parse_models_output (output : String) : List LLMModel :=
  ((splitOnChar '\n' (pyStrip output).data).map String.mk).filterMap parseLine

/-- Deny-listed legacy/deprecated substrings of `_filter_and_prioritize`. -/
def denyKeywords : List String :=
  ["1106-preview", "0125-preview", "32k", "instruct", "davinci", "curie"]

/-- Filter predicate of `_filter_and_prioritize` (src/llm_discovery.py lines
211-234): drop experimental models, deny-listed names and audio models. -/
def keepModel (m : LLMModel) : Bool :=
  !m.is_experimental &&
  !(denyKeywords.any fun kw => containsSub (strLower m.name) kw) &&
  !(["audio"].any fun kw => containsSub (strLower m.name) kw)

/-- Stable insert for Python `list.sort(key=lambda m: m.priority)`: an
element goes before the first one of greater-or-equal priority, so
equal-priority elements keep their original order. -/
def insertByPriority (x : LLMModel) : List LLMModel → List LLMModel
  | [] => [x]
  | y :: ys =>
    if x.priority ≤ y.priority then x :: y :: ys else y :: insertByPriority x ys

/-- Stable sort by ascending priority (Python `list.sort` with
`key=lambda m: m.priority`). -/
def sortByPriority : List LLMModel → List LLMModel
  | [] => []
  | x :: xs => insertByPriority x (sortByPriority xs)

/-- Method `LLMModelDiscovery._filter_and_prioritize` (src/llm_discovery.py
lines 206-240): filter, stable-sort by priority, cap at 15. -/
def filter_and_prioritize (models : List LLMModel) : List LLMModel :=
  (sortByPriority (models.filter keepModel)).take 15

/-- Static fallback list `self.fallback_models` of
`LLMModelDiscovery.__init__` (src/llm_discovery.py lines 24-39). -/
def fallback_models : List LLMModel :=
  [{ name := "llama3.2", provider := "Ollama",
     aliases := ["llama3.2-3b", "llama3.2:latest"],
     is_chat := true, is_experimental := false, priority := 1 },
   { name := "llama3.1", provider := "Ollama", aliases := ["llama3.1:latest"],
     is_chat := true, is_experimental := false, priority := 2 },
   { name := "mistral", provider := "Ollama", aliases := ["mistral:latest"],
     is_chat := true, is_experimental := false, priority := 3 },
   { name := "codellama", provider := "Ollama", aliases := ["codellama:latest"],
     is_chat := true, is_experimental := false, priority := 4 },
   { name := "gpt-4o", provider := "OpenAI Chat", aliases := ["4o"],
     is_chat := true, is_experimental := false, priority := 10 },
   { name := "gpt-4o-mini", provider := "OpenAI Chat", aliases := ["4o-mini"],
     is_chat := true, is_experimental := false, priority := 11 },
   { name := "gpt-4", provider := "OpenAI Chat", aliases := ["4", "gpt4"],
     is_chat := true, is_experimental := false, priority := 12 },
   { name := "gpt-3.5-turbo", provider := "OpenAI Chat", aliases := ["3.5", "chatgpt"],
     is_chat := true, is_experimental := false, priority := 13 }]

/-- Cache fields of `LLMModelDiscovery` (`cache_timeout`, `_cached_models`,
`_cache_timestamp`). -/
structure DiscoveryState where
  cache_timeout : Int := 300
  cached_models : Option (List LLMModel) := none
  cache_timestamp : Int := 0
  deriving Repr, DecidableEq

/-- Method `LLMModelDiscovery._run_llm_models_list` (src/llm_discovery.py
lines 72-82) over the abstract subprocess outcome: stdout on zero exit,
`None` on non-zero exit or any caught exception (timeout, missing tool,
anything else). -/
def run_llm_models_list : SubprocResult → Option String
  | .completed rc out _ => if rc = 0 then some out else none
  | .timedOut => none
  | .fileNotFound => none
  | .otherError _ => none

/-- Refresh path of `discover_models`: run the listing tool; on a truthy
output parse, filter, update both cache fields and return the filtered list;
otherwise return the static fallback list with the state untouched. -/
def tryDiscover (st : DiscoveryState) (current_time : Int) (proc : SubprocResult) :
    List LLMModel × DiscoveryState :=
  match run_llm_models_list proc with
  | some output =>
    if output ≠ "" then
      let filtered := filter_and_prioritize (parse_models_output output)
      (filtered,
       { st with cached_models := some filtered, cache_timestamp := current_time })
    else (fallback_models, st)
  | none => (fallback_models, st)

/-- Method `LLMModelDiscovery.discover_models` (src/llm_discovery.py lines
174-204) as a state-passing function: serve a fresh cache unless a refresh
is forced, otherwise attempt discovery via `tryDiscover`. -/
def discover_models (st : DiscoveryState) (current_time : Int) (force_refresh : Bool)
    (proc : SubprocResult) : List LLMModel × DiscoveryState :=
  match st.cached_models with
  | some ms =>
    if !force_refresh && current_time - st.cache_timestamp < st.cache_timeout then
      (ms, st)
    else tryDiscover st current_time proc
  | none => tryDiscover st current_time proc

end Discovery

namespace UrlSummarizer

/-- Generic format prompts `self.system_prompts` of `URLSummarizer.__init__`
(src/url_summarizer.py lines 68-75). -/
def system_prompts : List (String × String) :=
  [("bullet",
    "Summarize this content in clear, comprehensive bullet points. Focus on the most important information, key arguments, and actionable insights. Include as many points as necessary to capture the essential content - don\x27t limit yourself to a specific number."),
   ("paragraph",
    "Provide a comprehensive paragraph summary that covers the main points, context, and significance of this content. Include relevant details that would help someone understand the full scope and implications of the information presented."),
   ("detailed",
    "Provide an in-depth analysis and summary including: key points and arguments, relevant context and background, implications and significance, notable discussions or perspectives, and any actionable insights or takeaways. Structure your response to be thorough and informative."),
   ("key-points",
    "Extract and present the most critical information as key points, focusing on facts, conclusions, and important details that someone would need to know. Prioritize accuracy and completeness over brevity."),
   ("discussion",
    "Summarize the main discussion points, different perspectives presented, notable arguments or debates, and the overall sentiment or consensus if applicable. Include context about why this topic is significant."),
   ("technical",
    "Provide a technical summary focusing on: specific details, methodologies, technical concepts, implementation details, and practical implications. Include relevant technical context and any limitations or considerations mentioned.")]

/-- Platform-specific prompt tables `self.platform_prompts` of
`URLSummarizer.__init__` (src/url_summarizer.py lines 78-97). -/
def platform_prompts : List (String × List (String × String)) :=
  [("reddit",
    [("bullet",
      "Summarize this Reddit post and discussion in comprehensive bullet points. Include: the main post content, top discussion points from comments, different perspectives or arguments presented, community sentiment, and any notable insights or conclusions. Capture the full scope of the discussion."),
     ("paragraph",
      "Provide a comprehensive summary of this Reddit post and its discussion. Include the main post content, key discussion points from comments, different viewpoints presented, community reaction, and the overall significance or conclusions drawn from the conversation."),
     ("detailed",
      "Provide an in-depth analysis of this Reddit post and discussion including: the original post content and context, major discussion themes and arguments, different perspectives and viewpoints, community sentiment and reactions, notable insights or expert opinions, and any actionable takeaways or conclusions."),
     ("discussion",
      "Focus on the Reddit discussion dynamics: main arguments and counterarguments, different user perspectives, community consensus or disagreements, notable expert contributions, and the overall direction and quality of the conversation.")]),
   ("hackernews",
    [("bullet",
      "Summarize this Hacker News post and discussion in comprehensive bullet points. Include: the main article/post content, key technical discussions, business implications, community insights, expert opinions, and practical takeaways. Focus on the technical and professional aspects."),
     ("paragraph",
      "Provide a comprehensive summary of this Hacker News post and discussion. Include the main content, key technical points discussed, business or industry implications, notable expert opinions, and practical insights that would be valuable to developers or professionals."),
     ("detailed",
      "Provide an in-depth analysis of this Hacker News post and discussion including: the original content and context, technical details and implications, business or industry significance, expert opinions and insights, practical applications or takeaways, and any concerns or limitations discussed."),
     ("technical",
      "Focus on the technical aspects: specific technologies, methodologies, implementation details, performance considerations, technical challenges or solutions discussed, and practical implications for developers or engineers.")]),
   ("youtube",
    [("bullet",
      "Summarize this YouTube video content in comprehensive bullet points. Include: main topics covered, key information presented, important insights or conclusions, practical advice or takeaways, and any notable demonstrations or examples. Capture the full educational or entertainment value."),
     ("paragraph",
      "Provide a comprehensive summary of this YouTube video content. Include the main topics discussed, key information and insights presented, practical advice or demonstrations, and the overall value or significance of the content for viewers."),
     ("detailed",
      "Provide an in-depth analysis of this YouTube video including: main topics and themes, detailed content breakdown, key insights and conclusions, practical advice or tutorials, demonstrations or examples shown, and the overall educational or entertainment value."),
     ("technical",
      "Focus on any technical content: specific concepts explained, methodologies demonstrated, technical details provided, practical implementations shown, and technical insights or advice given.")])]

/-- Platform-table lookup of `get_system_prompt`: the platform-specific
prompt for the configured format, when the (truthy) platform has a
registered table containing that format. -/
def platformPrompt (format : String) (platform : Option String) : Option String :=
  match platform with
  | none => none
  | some p =>
    if p = "" then none
    else
      match platform_prompts.lookup p with
      | none => none
      | some tbl => tbl.lookup format

/-- Generic-prompt fallback of `get_system_prompt`:
`self.system_prompts.get(format, self.system_prompts["bullet"])`. -/
def genericPrompt (format : String) : String :=
  (system_prompts.lookup format).getD ((system_prompts.lookup "bullet").getD "")

/-- Method `URLSummarizer.get_system_prompt` (src/url_summarizer.py lines
263-277): a truthy configured override wins; else the platform-specific
prompt for the configured format when registered; else the generic prompt,
with the `bullet` generic prompt as the default for an unknown format.
Python truthiness makes an empty-string override behave like an absent one,
and an empty-string platform like no platform. -/
def get_system_prompt (cfg : SummaryConfig) (platform : Option String) : String :=
  match cfg.system_prompt with
  | some s =>
    if s ≠ "" then s
    else
      match platformPrompt cfg.format platform with
      | some ps => ps
      | none => genericPrompt cfg.format
  | none =>
    match platformPrompt cfg.format platform with
    | some ps => ps
    | none => genericPrompt cfg.format

end UrlSummarizer

namespace Utils

/-- Function `validate_url` (src/utils.py lines 14-20):
`all([result.scheme, result.netloc])` under Python truthiness, with any
`urlparse` exception caught and turned into `False`. -/
def validate_url (url : String) : Bool :=
  match pyUrlparse url with
  | none => false
  | some r => r.scheme ≠ "" && r.netloc ≠ ""

end Utils

/-! ## Helper lemmas -/

theorem isPrefixOf_self (l : List Char) : l.isPrefixOf l = true := by
  induction l with
  | nil => rfl
  | cons a t ih => simp [List.isPrefixOf, ih]

theorem containsSubL_append_self (needle pre : List Char) :
    containsSubL needle (pre ++ needle) = true := by
  induction pre with
  | nil =>
    cases needle with
    | nil => rfl
    | cons c t => simp [containsSubL, isPrefixOf_self]
  | cons c t ih => simp [containsSubL, ih]

theorem containsSub_append_self (pre s : String) :
    containsSub (pre ++ s) s = true := by
  simpa [containsSub] using containsSubL_append_self s.data pre.data

/-! ## Claim C1 -/

/-- Claim C1 states that `_calculate_priority` applies at most one
model-name-specific bonus — among the configured negative-weight keys that
are substrings of the name, only the longest key's weight is added — and
that for provider "OpenAI Chat" and name "gpt-4o-mini" (chat, not
experimental) the result is 10 + (-5) + (-8) = -3.  The source contains the
`for _model_key, bonus in sorted_model_bonuses: priority += bonus; break`
loop twice in a row, so the longest key's weight (-8) is added twice and
the computed priority is -11, contradicting the claim and the code's own
"Apply only the most specific bonus" comment. -/
theorem C1_calculate_priority_gpt_4o_mini :
    Discovery.calculate_priority "OpenAI Chat" "gpt-4o-mini" true false = -11 ∧
    Discovery.calculate_priority "OpenAI Chat" "gpt-4o-mini" true false ≠ 10 + (-5) + (-8) := by
  decide

/-! ## Claim C5 -/

/-- Claim C5: whenever the external model-listing invocation actually runs
(the cache is absent, expired, or a refresh is forced) and fails — tool
absent, non-zero exit, timeout, or any other caught exception, all of which
make `_run_llm_models_list` return `None` — `discover_models` returns the
static fallback list and leaves every cache field exactly as it was. -/
theorem C5_discover_models_failure_atomic :
    ∀ (st : Discovery.DiscoveryState) (t : Int) (force : Bool) (proc : SubprocResult),
      (force = true ∨ st.cached_models = none ∨ st.cache_timeout ≤ t - st.cache_timestamp) →
      Discovery.run_llm_models_list proc = none →
      Discovery.discover_models st t force proc = (Discovery.fallback_models, st) := by
  intro st t force proc hcall hrun
  have htry : Discovery.tryDiscover st t proc = (Discovery.fallback_models, st) := by
    unfold Discovery.tryDiscover
    rw [hrun]
  unfold Discovery.discover_models
  cases hc : st.cached_models with
  | none => exact htry
  | some ms =>
    have hcond : (!force && decide (t - st.cache_timestamp < st.cache_timeout)) = false := by
      rcases hcall with hf | hn | ht
      · subst hf; rfl
      · rw [hc] at hn; cases hn
      · simp [decide_eq_false]; intro _; omega
    rw [hcond]
    exact htry

/-- Witness for C5: a never-filled cache and a timed-out listing call. -/
theorem C5_witness :
    Discovery.discover_models {} 0 false .timedOut = (Discovery.fallback_models, {}) :=
  C5_discover_models_failure_atomic {} 0 false .timedOut (Or.inr (Or.inl rfl)) rfl

/-! ## Claim C4 -/

/-- Claim C4: for every routable URL (one `detect_url_type` matches) and
every configuration, `generate_summary` classifies the single subprocess
invocation exhaustively — the five cases below cover every constructor of
`SubprocResult`, and the function is total, so no exception escapes.  Exit
code 0 yields success with the summary content equal to the trimmed
standard output; a non-zero exit yields failure whose message contains the
captured standard error; a timeout, a missing `llm` executable, and any
other exception yield the timeout, installation and unexpected-error
failure messages. -/
theorem C4_generate_summary_classification :
    ∀ (cfg : SummaryConfig) (url : String) (fi : String × String) (proc : SubprocResult),
      Summarizers.detect_url_type url = some fi →
      ((∀ out err, proc = .completed 0 out err →
          Summarizers.generate_summary cfg url proc =
            (true,
             some { url_id := 0, content := pyStrip out, model_used := cfg.model,
                    format_type := cfg.format, fragment_used := some fi.1 },
             none)) ∧
       (∀ rc out err, proc = .completed rc out err → rc ≠ 0 →
          Summarizers.generate_summary cfg url proc =
              (false, none, some ("LLM command failed: " ++ err)) ∧
            containsSub ("LLM command failed: " ++ err) err = true) ∧
       (proc = .timedOut →
          Summarizers.generate_summary cfg url proc =
            (false, none,
             some ("Request timed out after " ++ toString cfg.timeout ++ " seconds"))) ∧
       (proc = .fileNotFound →
          Summarizers.generate_summary cfg url proc =
            (false, none, some "\x27llm\x27 command not found. Install with: uv add llm")) ∧
       (∀ m, proc = .otherError m →
          Summarizers.generate_summary cfg url proc =
            (false, none, some ("Unexpected error: " ++ m)))) := by
  intro cfg url fi proc hroute
  refine ⟨?_, ?_, ?_, ?_, ?_⟩
  · intro out err hp
    subst hp
    unfold Summarizers.generate_summary
    rw [hroute]
    rfl
  · intro rc out err hp hrc
    subst hp
    constructor
    · unfold Summarizers.generate_summary
      rw [hroute]
      simp [hrc]
    · exact containsSub_append_self "LLM command failed: " err
  · intro hp
    subst hp
    unfold Summarizers.generate_summary
    rw [hroute]
  · intro hp
    subst hp
    unfold Summarizers.generate_summary
    rw [hroute]
  · intro m hp
    subst hp
    unfold Summarizers.generate_summary
    rw [hroute]

/-- Witness for C4: the Hacker News scenario URL with each subprocess
outcome, including the non-zero exit with stderr "rate limited" from the
spec's scenario. -/
theorem C4_witness :
    Summarizers.generate_summary {} "https://news.ycombinator.com/item?id=12345678"
        (.completed 0 " the summary \n" "") =
      (true,
       some { url_id := 0, content := "the summary", model_used := "llama3.2:3b",
              format_type := "bullet", fragment_used := some "llm-hacker-news" },
       none) ∧
    Summarizers.generate_summary {} "https://news.ycombinator.com/item?id=12345678"
        (.completed 1 "" "rate limited") =
      (false, none, some "LLM command failed: rate limited") ∧
    Summarizers.generate_summary {} "https://news.ycombinator.com/item?id=12345678"
        .timedOut =
      (false, none, some "Request timed out after 120 seconds") ∧
    Summarizers.generate_summary {} "https://news.ycombinator.com/item?id=12345678"
        .fileNotFound =
      (false, none, some "\x27llm\x27 command not found. Install with: uv add llm") ∧
    Summarizers.generate_summary {} "https://news.ycombinator.com/item?id=12345678"
        (.otherError "boom") =
      (false, none, some "Unexpected error: boom") := by
  have hroute : Summarizers.detect_url_type "https://news.ycombinator.com/item?id=12345678"
      = some ("llm-hacker-news", "hn:12345678") := by rfl
  refine ⟨?_, ?_, ?_, ?_, ?_⟩
  · exact (C4_generate_summary_classification {} _ _ _ hroute).1 _ _ rfl
  · exact ((C4_generate_summary_classification {} _ _ _ hroute).2.1 1 "" "rate limited" rfl
      (by decide)).1
  · exact (C4_generate_summary_classification {} _ _ _ hroute).2.2.1 rfl
  · exact (C4_generate_summary_classification {} _ _ _ hroute).2.2.2.1 rfl
  · exact (C4_generate_summary_classification {} _ _ _ hroute).2.2.2.2 "boom" rfl

/-! ## Claim C10 -/

/-- Claim C10: `validate_url` returns `True` exactly when URL parsing yields
a non-empty scheme and a non-empty network location (the truthiness of
`all([result.scheme, result.netloc])`), it never raises (total by
construction, exceptions mapping to `False`); every string parsed with an
empty scheme — in particular every scheme-less string such as
"youtube.com/watch?v=x" — and the empty string are rejected, and an
accepted URL always has a non-empty host for the router. -/
theorem C10_validate_url_characterization :
    (∀ url, Utils.validate_url url = true ↔
      ∃ r, pyUrlparse url = some r ∧ r.scheme ≠ "" ∧ r.netloc ≠ "") ∧
    (∀ url r, pyUrlparse url = some r → r.scheme = "" → Utils.validate_url url = false) ∧
    (∀ url, Utils.validate_url url = true →
      ∃ r, pyUrlparse url = some r ∧ r.netloc ≠ "") ∧
    Utils.validate_url "youtube.com/watch?v=x" = false ∧
    Utils.validate_url "" = false := by
  have hiff : ∀ url, Utils.validate_url url = true ↔
      ∃ r, pyUrlparse url = some r ∧ r.scheme ≠ "" ∧ r.netloc ≠ "" := by
    intro url
    unfold Utils.validate_url
    cases hp : pyUrlparse url with
    | none => simp
    | some r => simp [hp]
  refine ⟨hiff, ?_, ?_, by decide, by decide⟩
  · intro url r hp hscheme
    cases hv : Utils.validate_url url with
    | false => rfl
    | true =>
      obtain ⟨r', hp', hs', _⟩ := (hiff url).mp hv
      rw [hp] at hp'
      cases hp'
      exact absurd hscheme hs'
  · intro url hv
    obtain ⟨r, hp, _, hn⟩ := (hiff url).mp hv
    exact ⟨r, hp, hn⟩

/-- Witness for C10: the scheme-less URL is rejected through the
empty-scheme conjunct, and an accepted URL yields a host. -/
theorem C10_witness :
    Utils.validate_url "youtube.com/watch?v=x" = false ∧
    (∃ r, pyUrlparse "https://example.com" = some r ∧ r.netloc ≠ "") := by
  constructor
  · exact C10_validate_url_characterization.2.1 "youtube.com/watch?v=x"
      ⟨"", "", "youtube.com/watch", "v=x", ""⟩ (by rfl) rfl
  · exact C10_validate_url_characterization.2.2.1 "https://example.com" (by decide)

/-! ## Claim C9 -/

/-- Claim C9 states that a present override is returned verbatim.  The code
guards the override with Python truthiness (`if self.config.system_prompt:`),
so a present but empty override is skipped and the generic bullet prompt is
returned instead of the empty string. -/
theorem C9_counterexample_empty_override :
    UrlSummarizer.get_system_prompt { system_prompt := some "" } none ≠ "" ∧
    ({ system_prompt := some "" : SummaryConfig }).system_prompt = some "" := by
  constructor
  · decide
  · rfl

/-- Claim C9 (amended): `get_system_prompt` resolves by strict precedence and
never errors — a present non-empty override is returned verbatim (an empty
override is treated as absent by Python truthiness); otherwise a platform
whose registered prompt table contains the format yields that
platform-specific prompt; otherwise the generic prompt for the format; and
for a format with no generic prompt the bullet generic prompt is used. -/
theorem C9_get_system_prompt_precedence :
    (∀ (cfg : SummaryConfig) (pf : Option String) (s : String),
       cfg.system_prompt = some s → s ≠ "" →
       UrlSummarizer.get_system_prompt cfg pf = s) ∧
    (∀ (cfg : SummaryConfig) (pf : Option String) (p : String)
       (tbl : List (String × String)) (ps : String),
       (cfg.system_prompt = none ∨ cfg.system_prompt = some "") →
       pf = some p → UrlSummarizer.platform_prompts.lookup p = some tbl →
       tbl.lookup cfg.format = some ps →
       UrlSummarizer.get_system_prompt cfg pf = ps) ∧
    (∀ (cfg : SummaryConfig) (pf : Option String),
       (cfg.system_prompt = none ∨ cfg.system_prompt = some "") →
       UrlSummarizer.platformPrompt cfg.format pf = none →
       UrlSummarizer.get_system_prompt cfg pf = UrlSummarizer.genericPrompt cfg.format) ∧
    (∀ format, UrlSummarizer.system_prompts.lookup format = none →
       UrlSummarizer.genericPrompt format =
         (UrlSummarizer.system_prompts.lookup "bullet").getD "") := by
  refine ⟨?_, ?_, ?_, ?_⟩
  · intro cfg pf s hs hne
    unfold UrlSummarizer.get_system_prompt
    rw [hs]
    simp [hne]
  · intro cfg pf p tbl ps hov hpf hptbl hfmt
    have hpne : p ≠ "" := by
      intro h
      subst h
      rw [show List.lookup "" UrlSummarizer.platform_prompts
          = (none : Option (List (String × String))) from rfl] at hptbl
      cases hptbl
    have hplat : UrlSummarizer.platformPrompt cfg.format pf = some ps := by
      unfold UrlSummarizer.platformPrompt
      rw [hpf]
      simp [hpne, hptbl, hfmt]
    unfold UrlSummarizer.get_system_prompt
    rcases hov with h | h <;> rw [h] <;> simp [hplat]
  · intro cfg pf hov hplat
    unfold UrlSummarizer.get_system_prompt
    rcases hov with h | h <;> rw [h] <;> simp [hplat]
  · intro format hmiss
    unfold UrlSummarizer.genericPrompt
    rw [hmiss]
    rfl

/-- Witness for C9: each precedence level at a concrete input — a non-empty
override, the reddit bullet platform prompt, the generic technical prompt
with no youtube table entry, and an unknown format falling back to the
bullet generic prompt. -/
theorem C9_witness :
    UrlSummarizer.get_system_prompt { system_prompt := some "X" } (some "reddit") = "X" ∧
    UrlSummarizer.get_system_prompt {} (some "reddit") =
      "Summarize this Reddit post and discussion in comprehensive bullet points. Include: the main post content, top discussion points from comments, different perspectives or arguments presented, community sentiment, and any notable insights or conclusions. Capture the full scope of the discussion." ∧
    UrlSummarizer.get_system_prompt { format := "key-points" } (some "youtube") =
      UrlSummarizer.genericPrompt "key-points" ∧
    UrlSummarizer.genericPrompt "no-such-format" =
      (UrlSummarizer.system_prompts.lookup "bullet").getD "" := by
  refine ⟨?_, ?_, ?_, ?_⟩
  · exact (C9_get_system_prompt_precedence.1 _ (some "reddit") "X" rfl (by decide))
  · exact (C9_get_system_prompt_precedence.2.1 {} (some "reddit") "reddit"
      ((UrlSummarizer.platform_prompts.lookup "reddit").getD []) _
      (Or.inl rfl) rfl (by rfl) (by rfl))
  · exact (C9_get_system_prompt_precedence.2.2.1 { format := "key-points" } (some "youtube")
      (Or.inl rfl) (by rfl))
  · exact (C9_get_system_prompt_precedence.2.2.2 "no-such-format" (by rfl))

/-! ## Claim C2 -/

theorem endsWithStr_incomparable {d s1 s2 : String} (h1 : endsWithStr d s1 = true)
    (h12 : ¬ s1.data <:+ s2.data) (h21 : ¬ s2.data <:+ s1.data) :
    endsWithStr d s2 = false := by
  cases h2 : endsWithStr d s2 with
  | false => rfl
  | true =>
    have hs1 : s1.data <:+ d.data := List.isSuffixOf_iff_suffix.mp h1
    have hs2 : s2.data <:+ d.data := List.isSuffixOf_iff_suffix.mp h2
    rcases List.suffix_or_suffix_of_suffix hs1 hs2 with h | h
    · exact absurd h h12
    · exact absurd h h21

/-- Claim C2: for every URL whose lower-cased, `www.`-stripped host
classifies as Reddit (`reddit.com` or a subdomain) or Hacker News
(`news.ycombinator.com`), `detect_url_type` still returns a match when id
extraction fails, with the entire original URL as the fragment identifier
(`reddit:<url>` / `hn:<url>`); whereas for a host classifying as YouTube
(`youtube.com`, a subdomain, or `youtu.be`), `detect_url_type` returns
`none` whenever id extraction fails. -/
theorem C2_detect_url_type_fallback_policy :
    (∀ (url : String) (r : UrlParts), pyUrlparse url = some r →
       (Summarizers.routeDomain r = "reddit.com" ∨
         endsWithStr (Summarizers.routeDomain r) ".reddit.com" = true) →
       Summarizers.extract_reddit_id url = none →
       Summarizers.detect_url_type url = some ("llm-fragments-reddit", "reddit:" ++ url)) ∧
    (∀ (url : String) (r : UrlParts), pyUrlparse url = some r →
       Summarizers.routeDomain r = "news.ycombinator.com" →
       Summarizers.extract_hn_id url = none →
       Summarizers.detect_url_type url = some ("llm-hacker-news", "hn:" ++ url)) ∧
    (∀ (url : String) (r : UrlParts), pyUrlparse url = some r →
       (Summarizers.routeDomain r = "youtube.com" ∨
         endsWithStr (Summarizers.routeDomain r) ".youtube.com" = true ∨
         Summarizers.routeDomain r = "youtu.be") →
       Summarizers.extract_youtube_id url = none →
       Summarizers.detect_url_type url = none) := by
  have hstep : ∀ (url : String) (r : UrlParts), pyUrlparse url = some r →
      Summarizers.detect_url_type url =
        Summarizers.detectWithDomain url (Summarizers.routeDomain r) := by
    intro url r hp
    unfold Summarizers.detect_url_type
    rw [hp]
  refine ⟨?_, ?_, ?_⟩
  · intro url r hp hdom hext
    rw [hstep url r hp]
    unfold Summarizers.detectWithDomain
    have hcond : (Summarizers.routeDomain r = "reddit.com" ||
        endsWithStr (Summarizers.routeDomain r) ".reddit.com") = true := by
      rcases hdom with h | h
      · simp [h]
      · simp [h]
    simp only [hcond, if_true]
    rw [hext]
    rfl
  · intro url r hp hdom hext
    rw [hstep url r hp]
    unfold Summarizers.detectWithDomain
    rw [hdom]
    simp only [show ((("news.ycombinator.com" : String) = "reddit.com" : Bool) ||
        endsWithStr "news.ycombinator.com" ".reddit.com") = false from by decide,
      show ((("news.ycombinator.com" : String) = "youtube.com" : Bool) ||
        endsWithStr "news.ycombinator.com" ".youtube.com") = false from by decide,
      show (("news.ycombinator.com" : String) = "youtu.be" : Bool) = false from by decide,
      show (("news.ycombinator.com" : String) = "news.ycombinator.com" : Bool) = true
        from by decide, if_true, if_false, Bool.false_eq_true]
    rw [hext]
    rfl
  · intro url r hp hdom hext
    rw [hstep url r hp]
    unfold Summarizers.detectWithDomain
    rcases hdom with h | h | h
    · rw [h]
      simp only [show ((("youtube.com" : String) = "reddit.com" : Bool) ||
          endsWithStr "youtube.com" ".reddit.com") = false from by decide,
        show ((("youtube.com" : String) = "youtube.com" : Bool) ||
          endsWithStr "youtube.com" ".youtube.com") = true from by decide,
        if_true, if_false, Bool.false_eq_true]
      rw [hext]
      rfl
    · have hc1 : ((Summarizers.routeDomain r = "reddit.com" : Bool) ||
          endsWithStr (Summarizers.routeDomain r) ".reddit.com") = false := by
        have hne : decide (Summarizers.routeDomain r = "reddit.com") = false := by
          cases hd : decide (Summarizers.routeDomain r = "reddit.com") with
          | false => rfl
          | true =>
            exfalso
            rw [of_decide_eq_true hd] at h
            exact absurd h (by decide)
        have hsuf : endsWithStr (Summarizers.routeDomain r) ".reddit.com" = false :=
          endsWithStr_incomparable h (by decide) (by decide)
        rw [hne, hsuf]
        rfl
      have hc2 : ((Summarizers.routeDomain r = "youtube.com" : Bool) ||
          endsWithStr (Summarizers.routeDomain r) ".youtube.com") = true := by
        simp [h]
      simp only [hc1, hc2, if_true, if_false, Bool.false_eq_true]
      rw [hext]
    · rw [h]
      simp only [show ((("youtu.be" : String) = "reddit.com" : Bool) ||
          endsWithStr "youtu.be" ".reddit.com") = false from by decide,
        show ((("youtu.be" : String) = "youtube.com" : Bool) ||
          endsWithStr "youtu.be" ".youtube.com") = false from by decide,
        show (("youtu.be" : String) = "youtu.be" : Bool) = true from by decide,
        if_true, if_false, Bool.false_eq_true]
      rw [hext]

/-- Witness for C2: a Reddit URL and a Hacker News URL on which extraction
fails route to the full-URL fragment, while a YouTube URL on which
extraction fails routes to nothing. -/
theorem C2_witness :
    Summarizers.detect_url_type "https://reddit.com/foo" =
      some ("llm-fragments-reddit", "reddit:https://reddit.com/foo") ∧
    Summarizers.detect_url_type "https://news.ycombinator.com/news" =
      some ("llm-hacker-news", "hn:https://news.ycombinator.com/news") ∧
    Summarizers.detect_url_type "https://youtube.com/" = none := by
  refine ⟨?_, ?_, ?_⟩
  · exact C2_detect_url_type_fallback_policy.1 "https://reddit.com/foo"
      ⟨"https", "reddit.com", "/foo", "", ""⟩ (by rfl) (Or.inl (by rfl)) (by rfl)
  · exact C2_detect_url_type_fallback_policy.2.1 "https://news.ycombinator.com/news"
      ⟨"https", "news.ycombinator.com", "/news", "", ""⟩ (by rfl) (by rfl) (by rfl)
  · exact C2_detect_url_type_fallback_policy.2.2 "https://youtube.com/"
      ⟨"https", "youtube.com", "/", "", ""⟩ (by rfl) (Or.inl (by rfl)) (by rfl)

/-! ## Claim C7 -/

/-- Skip condition of claim C7 on one raw line of the model listing: blank
after stripping, beginning with `Default:`, or not splitting into exactly
two parts on the first `": "` (the separator does not occur). -/
def skipLine (line : String) : Bool :=
  pyStrip line = "" || startsWithStr (pyStrip line) "Default:" ||
    !(containsSub (pyStrip line) ": ")

theorem findSubIdx_isNone (needle cs : List Char) :
    (findSubIdx needle cs).isNone = !(containsSubL needle cs) := by
  induction cs with
  | nil =>
    by_cases h : needle.isEmpty <;> simp [findSubIdx, containsSubL, h]
  | cons c t ih =>
    by_cases h : needle.isPrefixOf (c :: t) <;>
      simp [findSubIdx, containsSubL, h, ih]

theorem length_filterMap_eq {α β : Type} (f : α → Option β) (l : List α) :
    (l.filterMap f).length = (l.filter fun a => (f a).isSome).length := by
  induction l with
  | nil => rfl
  | cons a t ih =>
    cases h : f a <;> simp [List.filterMap_cons, List.filter_cons, h, ih]

theorem parseLine_isSome (l : String) :
    (Discovery.parseLine l).isSome = !(skipLine l) := by
  unfold Discovery.parseLine skipLine
  by_cases h1 : pyStrip l = ""
  · simp [h1]
  · by_cases h2 : startsWithStr (pyStrip l) "Default:" = true
    · simp [h1, h2]
    · have hdata : (": " : String).data = [':', ' '] := rfl
      cases h3 : splitOnceL [':', ' '] (pyStrip l).data with
      | none =>
        have h4 : (findSubIdx [':', ' '] (pyStrip l).data).isNone = true := by
          unfold splitOnceL at h3
          cases hf : findSubIdx [':', ' '] (pyStrip l).data with
          | none => rfl
          | some i => rw [hf] at h3; cases h3
        rw [findSubIdx_isNone] at h4
        have h5 : containsSub (pyStrip l) ": " = false := by
          unfold containsSub
          rw [hdata]
          cases hc : containsSubL [':', ' '] (pyStrip l).data
          · rfl
          · rw [hc] at h4; cases h4
        simp [h1, h2, h3, h5]
      | some pr =>
        have h4 : (findSubIdx [':', ' '] (pyStrip l).data).isNone = false := by
          unfold splitOnceL at h3
          cases hf : findSubIdx [':', ' '] (pyStrip l).data with
          | none => rw [hf] at h3; cases h3
          | some i => rfl
        rw [findSubIdx_isNone] at h4
        have h5 : containsSub (pyStrip l) ": " = true := by
          unfold containsSub
          rw [hdata]
          cases hc : containsSubL [':', ' '] (pyStrip l).data
          · rw [hc] at h4; cases h4
          · rfl
        simp [h1, h2, h3, h5]

/-- Claim C7: `_parse_models_output` is total (it never raises — malformed
input only yields fewer records), and its record count is exactly the
number of lines that are not skipped: blank lines, `Default:` lines and
lines without the `": "` separator contribute no record, every other line
contributes exactly one. -/
theorem C7_parse_models_output_line_discipline :
    ∀ output : String,
      (Discovery.parse_models_output output).length =
        (((splitOnChar '\n' (pyStrip output).data).map String.mk).filter
          fun l => !(skipLine l)).length := by
  intro output
  unfold Discovery.parse_models_output
  rw [length_filterMap_eq]
  congr 1
  apply List.filter_congr
  intro l _
  rw [parseLine_isSome]

/-! ## Claim C6 -/

theorem mem_insertByPriority {x y : LLMModel} {l : List LLMModel} :
    y ∈ Discovery.insertByPriority x l ↔ y = x ∨ y ∈ l := by
  induction l with
  | nil => simp [Discovery.insertByPriority]
  | cons z t ih =>
    by_cases h : x.priority ≤ z.priority
    · simp [Discovery.insertByPriority, h]
    · simp [Discovery.insertByPriority, h, ih]
      tauto

theorem pairwise_insertByPriority {x : LLMModel} {l : List LLMModel}
    (h : l.Pairwise fun a b => a.priority ≤ b.priority) :
    (Discovery.insertByPriority x l).Pairwise fun a b => a.priority ≤ b.priority := by
  induction l with
  | nil => simp [Discovery.insertByPriority]
  | cons z t ih =>
    rcases List.pairwise_cons.mp h with ⟨hz, ht⟩
    by_cases hle : x.priority ≤ z.priority
    · rw [Discovery.insertByPriority, if_pos hle]
      refine List.pairwise_cons.mpr ⟨?_, h⟩
      intro b hb
      rcases List.mem_cons.mp hb with hb | hb
      · subst hb
        omega
      · have := hz b hb
        omega
    · rw [Discovery.insertByPriority, if_neg hle]
      refine List.pairwise_cons.mpr ⟨?_, ih ht⟩
      intro b hb
      rcases mem_insertByPriority.mp hb with hb | hb
      · subst hb
        omega
      · exact hz b hb

theorem pairwise_sortByPriority (l : List LLMModel) :
    (Discovery.sortByPriority l).Pairwise fun a b => a.priority ≤ b.priority := by
  induction l with
  | nil => simp [Discovery.sortByPriority]
  | cons x t ih => exact pairwise_insertByPriority ih

theorem mem_sortByPriority {y : LLMModel} {l : List LLMModel} :
    y ∈ Discovery.sortByPriority l ↔ y ∈ l := by
  induction l with
  | nil => simp [Discovery.sortByPriority]
  | cons x t ih =>
    rw [Discovery.sortByPriority, mem_insertByPriority]
    simp [ih]

theorem filter_insertByPriority (x : LLMModel) (l : List LLMModel) (p : Int) :
    (Discovery.insertByPriority x l).filter (fun m => decide (m.priority = p)) =
      if x.priority = p then x :: l.filter (fun m => decide (m.priority = p))
      else l.filter (fun m => decide (m.priority = p)) := by
  induction l with
  | nil =>
    by_cases h : x.priority = p <;> simp [Discovery.insertByPriority, h]
  | cons z t ih =>
    by_cases hle : x.priority ≤ z.priority
    · rw [Discovery.insertByPriority, if_pos hle]
      by_cases hx : x.priority = p <;> simp [hx, List.filter_cons]
    · rw [Discovery.insertByPriority, if_neg hle]
      by_cases hz : z.priority = p
      · have hx : ¬ x.priority = p := by omega
        simp [List.filter_cons, hz, hx, ih]
      · by_cases hx : x.priority = p <;> simp [List.filter_cons, hz, hx, ih]

theorem filter_sortByPriority (l : List LLMModel) (p : Int) :
    (Discovery.sortByPriority l).filter (fun m => decide (m.priority = p)) =
      l.filter (fun m => decide (m.priority = p)) := by
  induction l with
  | nil => rfl
  | cons x t ih =>
    rw [Discovery.sortByPriority, filter_insertByPriority]
    by_cases hx : x.priority = p <;> simp [List.filter_cons, hx, ih]

/-- Claim C6: after every successful refresh, `discover_models` caches
exactly `_filter_and_prioritize` of the parsed listing (first part; the
cached snapshot is an immutable value, so it keeps satisfying its
invariant until the next successful refresh replaces it), and every
`_filter_and_prioritize` result contains no experimental model, no model
whose lower-cased name contains a deny-listed substring or `audio`, is
sorted ascending by priority, is stable (its equal-priority models form a
prefix of the kept models in discovery order), and has at most 15
entries. -/
theorem C6_refresh_invariant :
    (∀ (st : Discovery.DiscoveryState) (t : Int) (force : Bool) (proc : SubprocResult)
       (out : String),
       (force = true ∨ st.cached_models = none ∨ st.cache_timeout ≤ t - st.cache_timestamp) →
       Discovery.run_llm_models_list proc = some out → out ≠ "" →
       Discovery.discover_models st t force proc =
         (Discovery.filter_and_prioritize (Discovery.parse_models_output out),
          { cache_timeout := st.cache_timeout,
            cached_models :=
              some (Discovery.filter_and_prioritize (Discovery.parse_models_output out)),
            cache_timestamp := t })) ∧
    (∀ models : List LLMModel,
       (∀ m ∈ Discovery.filter_and_prioritize models,
          m.is_experimental = false ∧
          (∀ kw ∈ Discovery.denyKeywords, containsSub (strLower m.name) kw = false) ∧
          containsSub (strLower m.name) "audio" = false) ∧
       (Discovery.filter_and_prioritize models).Pairwise
         (fun a b => a.priority ≤ b.priority) ∧
       (∀ p : Int,
          (Discovery.filter_and_prioritize models).filter
              (fun m => decide (m.priority = p)) <+:
            (models.filter Discovery.keepModel).filter
              (fun m => decide (m.priority = p))) ∧
       (Discovery.filter_and_prioritize models).length ≤ 15) := by
  constructor
  · intro st t force proc out hcall hrun hne
    have htry : Discovery.tryDiscover st t proc =
        (Discovery.filter_and_prioritize (Discovery.parse_models_output out),
         { cache_timeout := st.cache_timeout,
           cached_models :=
             some (Discovery.filter_and_prioritize (Discovery.parse_models_output out)),
           cache_timestamp := t }) := by
      unfold Discovery.tryDiscover
      rw [hrun]
      simp [hne]
    unfold Discovery.discover_models
    cases hc : st.cached_models with
    | none => exact htry
    | some ms =>
      have hcond : (!force && decide (t - st.cache_timestamp < st.cache_timeout)) = false := by
        rcases hcall with hf | hn | ht
        · subst hf; rfl
        · rw [hc] at hn; cases hn
        · simp [decide_eq_false]; intro _; omega
      rw [hcond]
      exact htry
  · intro models
    refine ⟨?_, ?_, ?_, ?_⟩
    · intro m hm
      have hm1 : m ∈ Discovery.sortByPriority (models.filter Discovery.keepModel) :=
        List.take_subset 15 _ hm
      have hm2 : m ∈ models.filter Discovery.keepModel := mem_sortByPriority.mp hm1
      have hkeep : Discovery.keepModel m = true := (List.mem_filter.mp hm2).2
      unfold Discovery.keepModel at hkeep
      simp only [Bool.and_eq_true, Bool.not_eq_true'] at hkeep
      obtain ⟨⟨hexp, hdeny⟩, haudio⟩ := hkeep
      refine ⟨hexp, ?_, ?_⟩
      · intro kw hkw
        rw [List.any_eq_false] at hdeny
        simpa using hdeny kw hkw
      · rw [List.any_eq_false] at haudio
        simpa using haudio "audio" (by simp)
    · exact List.Pairwise.sublist (List.take_sublist 15 _)
        (pairwise_sortByPriority (models.filter Discovery.keepModel))
    · intro p
      have h1 : (Discovery.filter_and_prioritize models).filter
            (fun m => decide (m.priority = p)) <+:
          (Discovery.sortByPriority (models.filter Discovery.keepModel)).filter
            (fun m => decide (m.priority = p)) :=
        List.IsPrefix.filter _ ( List.take_prefix 15 _)
      rw [filter_sortByPriority] at h1
      exact h1
    · exact List.length_take_le 15 _

/-- Model record parsed from the one-line witness listing of C6. -/
def c6ParsedModel : LLMModel :=
  { name := "gpt-4o", provider := "OpenAI Chat", aliases := [],
    is_chat := true, is_experimental := false, priority := -15 }

/-- Witness for C6: a one-line successful listing refresh caches exactly
the single filtered record, which satisfies the invariant. -/
theorem C6_witness :
    Discovery.discover_models {} 0 false (.completed 0 "OpenAI Chat: gpt-4o" "") =
      ([c6ParsedModel],
       { cache_timeout := 300, cached_models := some [c6ParsedModel],
         cache_timestamp := 0 }) ∧
    c6ParsedModel.is_experimental = false ∧
    (Discovery.filter_and_prioritize
      (Discovery.parse_models_output "OpenAI Chat: gpt-4o")).length ≤ 15 := by
  refine ⟨?_, ?_, ?_⟩
  · have h := C6_refresh_invariant.1 {} 0 false (.completed 0 "OpenAI Chat: gpt-4o" "")
      "OpenAI Chat: gpt-4o" (Or.inr (Or.inl rfl)) rfl (by decide)
    rw [h]
    rfl
  · exact ((C6_refresh_invariant.2
      (Discovery.parse_models_output "OpenAI Chat: gpt-4o")).1 c6ParsedModel (by decide)).1
  · exact (C6_refresh_invariant.2
      (Discovery.parse_models_output "OpenAI Chat: gpt-4o")).2.2.2

/-! ## Claim C8 -/

theorem searchAt_some {att : List Char → Option (List Char)} {cs g : List Char}
    (h : Summarizers.searchAt att cs = some g) : ∃ t, att t = some g := by
  induction cs with
  | nil => exact ⟨[], h⟩
  | cons c t ih =>
    rw [Summarizers.searchAt] at h
    cases ha : att (c :: t) with
    | some r =>
      rw [ha] at h
      exact ⟨c :: t, by rw [ha]; exact h⟩
    | none =>
      rw [ha] at h
      exact ih h

theorem takeExact_length {p : Char → Bool} :
    ∀ {n : Nat} {cs : List Char} {pr : List Char × List Char},
      Summarizers.takeExact p n cs = some pr → pr.1.length = n := by
  intro n
  induction n with
  | zero =>
    intro cs pr h
    rw [Summarizers.takeExact] at h
    cases h
    rfl
  | succ k ih =>
    intro cs pr h
    cases cs with
    | nil => rw [Summarizers.takeExact] at h; cases h
    | cons c t =>
      rw [Summarizers.takeExact] at h
      by_cases hc : p c = true
      · rw [if_pos hc] at h
        cases hte : Summarizers.takeExact p k t with
        | none => rw [hte] at h; cases h
        | some pr' =>
          rw [hte] at h
          simp only [Option.map_some'] at h
          cases h
          simp [ih hte]
      · rw [if_neg hc] at h
        cases h

theorem takeExactMap_some_ne_nil {t g : List Char}
    (h : (Summarizers.takeExact Summarizers.isYTIdChar 11 t).map (·.1) = some g) :
    g ≠ [] := by
  cases hte : Summarizers.takeExact Summarizers.isYTIdChar 11 t with
  | none => rw [hte] at h; cases h
  | some pr =>
    rw [hte] at h
    simp only [Option.map_some'] at h
    cases h
    have hlen := takeExact_length hte
    intro hnil
    rw [hnil] at hlen
    cases hlen

theorem takeWhile1_some_ne_nil {p : Char → Bool} {cs : List Char}
    {pr : List Char × List Char} (h : takeWhile1 p cs = some pr) : pr.1 ≠ [] := by
  unfold takeWhile1 at h
  by_cases he : (cs.takeWhile p).isEmpty = true
  · rw [if_pos he] at h; cases h
  · rw [if_neg he] at h
    cases h
    intro hnil
    apply he
    rw [show cs.takeWhile p = [] from hnil]
    rfl

theorem ytPat1At_some_ne_nil {t g : List Char}
    (h : Summarizers.ytPat1At t = some g) : g ≠ [] := by
  unfold Summarizers.ytPat1At at h
  cases h1 : stripPre "v=" t with
  | some t1 =>
    rw [h1] at h
    exact takeExactMap_some_ne_nil h
  | none =>
    rw [h1] at h
    cases h2 : stripPre "/" t with
    | some t1 => rw [h2] at h; exact takeExactMap_some_ne_nil h
    | none => rw [h2] at h; cases h

theorem ytStripTake_some_ne_nil {pre : String} {t g : List Char}
    (h : (match stripPre pre t with
          | some u => (Summarizers.takeExact Summarizers.isYTIdChar 11 u).map (·.1)
          | none => none) = some g) : g ≠ [] := by
  cases hs : stripPre pre t with
  | some u => rw [hs] at h; exact takeExactMap_some_ne_nil h
  | none => rw [hs] at h; cases h

theorem takeWhile1Map_some_ne_nil {q : Char → Bool} {u g : List Char}
    (h : (takeWhile1 q u).map (·.1) = some g) : g ≠ [] := by
  cases hw : takeWhile1 q u with
  | none => rw [hw] at h; cases h
  | some pr =>
    rw [hw] at h
    simp only [Option.map_some'] at h
    cases h
    exact takeWhile1_some_ne_nil hw

theorem ytStripWhile_some_ne_nil {pre : String} {q : Char → Bool} {t g : List Char}
    (h : (match stripPre pre t with
          | some u => (takeWhile1 q u).map (·.1)
          | none => none) = some g) : g ≠ [] := by
  cases hs : stripPre pre t with
  | some u =>
    rw [hs] at h
    exact takeWhile1Map_some_ne_nil h
  | none => rw [hs] at h; cases h

theorem ytRegexSearch_some_ne_nil {cs g : List Char}
    (h : Summarizers.ytRegexSearch cs = some g) : g ≠ [] := by
  unfold Summarizers.ytRegexSearch at h
  cases h1 : Summarizers.searchAt Summarizers.ytPat1At cs with
  | some r =>
    rw [h1] at h
    cases h
    obtain ⟨t, ht⟩ := searchAt_some h1
    exact ytPat1At_some_ne_nil ht
  | none =>
    rw [h1] at h
    cases h2 : Summarizers.searchAt Summarizers.ytPat2At cs with
    | some r =>
      rw [h2] at h
      cases h
      obtain ⟨t, ht⟩ := searchAt_some h2
      exact ytStripTake_some_ne_nil ht
    | none =>
      rw [h2] at h
      cases h3 : Summarizers.searchAt Summarizers.ytPat3At cs with
      | some r =>
        rw [h3] at h
        cases h
        obtain ⟨t, ht⟩ := searchAt_some h3
        exact ytStripTake_some_ne_nil ht
      | none =>
        rw [h3] at h
        cases h4 : Summarizers.searchAt Summarizers.ytPat4At cs with
        | some r =>
          rw [h4] at h
          cases h
          obtain ⟨t, ht⟩ := searchAt_some h4
          exact ytStripWhile_some_ne_nil ht
        | none =>
          rw [h4] at h
          obtain ⟨t, ht⟩ := searchAt_some h
          exact ytStripWhile_some_ne_nil ht

theorem redditAfterDomain_some_ne_nil {t g : List Char}
    (h : Summarizers.redditAfterDomain t = some g) : g ≠ [] := by
  unfold Summarizers.redditAfterDomain at h
  simp only [] at h
  cases hv : (match stripPre "r/" t with
    | some t1 =>
      match takeWhile1 (· ≠ '/') t1 with
      | some (_, t2) =>
        match stripPre "/comments/" t2 with
        | some t3 => (takeWhile1 Summarizers.redditIdChar t3).map (·.1)
        | none => none
      | none => none
    | none => none : Option (List Char)) with
  | some g' =>
    rw [hv] at h
    cases h
    cases h1 : stripPre "r/" t with
    | none => rw [h1] at hv; cases hv
    | some t1 =>
      simp only [h1] at hv
      cases h2 : takeWhile1 (fun x => decide (x ≠ '/')) t1 with
      | none =>
        simp only [h2] at hv
        cases hv
      | some pr =>
        obtain ⟨sub, t2⟩ := pr
        simp only [h2] at hv
        cases h3 : stripPre "/comments/" t2 with
        | none =>
          simp only [h3] at hv
          cases hv
        | some t3 =>
          simp only [h3] at hv
          exact takeWhile1Map_some_ne_nil hv
  | none =>
    rw [hv] at h
    cases h4 : stripPre "comments/" t with
    | none => rw [h4] at h; cases h
    | some t3 =>
      rw [h4] at h
      exact takeWhile1Map_some_ne_nil h

theorem redditRegexMatch_some_ne_nil {cs g : List Char}
    (h : Summarizers.redditRegexMatch cs = some g) : g ≠ [] := by
  unfold Summarizers.redditRegexMatch at h
  cases hs : stripPre "reddit.com/" (Summarizers.stripWww (Summarizers.stripScheme cs)) with
  | none => rw [hs] at h; cases h
  | some t => rw [hs] at h; exact redditAfterDomain_some_ne_nil h

theorem hnRegexMatch_some_ne_nil {cs g : List Char}
    (h : Summarizers.hnRegexMatch cs = some g) : g ≠ [] := by
  unfold Summarizers.hnRegexMatch at h
  cases hs : stripPre "news.ycombinator.com/item?id="
      (Summarizers.stripWww (Summarizers.stripScheme cs)) with
  | none => rw [hs] at h; cases h
  | some t => rw [hs] at h; exact takeWhile1Map_some_ne_nil h

theorem unquoteL_cons_ne_nil (c : Char) (t : List Char) : unquoteL (c :: t) ≠ [] := by
  match t with
  | [] => simp [unquoteL]
  | [h1] => simp [unquoteL]
  | h1 :: h2 :: t2 =>
    rw [unquoteL]
    split <;> simp

theorem unquotePlus_ne_empty {s : String} (h : s.data ≠ []) : unquotePlus s ≠ "" := by
  intro hcontra
  have hdata : unquoteL (s.data.map fun c => if c = '+' then ' ' else c) = [] := by
    have := congrArg String.data hcontra
    simpa [unquotePlus] using this
  cases hd : s.data with
  | nil => exact h hd
  | cons c t =>
    rw [hd, List.map_cons] at hdata
    exact unquoteL_cons_ne_nil _ _ hdata

theorem parse_qsl_value_ne_empty {q : String} {kv : String × String}
    (h : kv ∈ parse_qsl q) : kv.2 ≠ "" := by
  unfold parse_qsl at h
  obtain ⟨field, hfield, hf⟩ := List.mem_filterMap.mp h
  by_cases he : field.isEmpty = true
  · rw [if_pos he] at hf; cases hf
  · rw [if_neg he] at hf
    cases hsp : splitOnceL ['='] field with
    | none => rw [hsp] at hf; cases hf
    | some nv =>
      obtain ⟨n, v⟩ := nv
      rw [hsp] at hf
      have hf' : (if v.isEmpty = true then none
          else some (unquotePlus (String.mk n), unquotePlus (String.mk v))) = some kv := hf
      by_cases hv : v.isEmpty = true
      · rw [if_pos hv] at hf'; cases hf'
      · rw [if_neg hv] at hf'
        cases hf'
        apply unquotePlus_ne_empty
        intro hnil
        apply hv
        rw [show v = [] from hnil]
        rfl

theorem extract_hn_id_some_ne_empty {url s : String}
    (h : Summarizers.extract_hn_id url = some s) : s ≠ "" := by
  unfold Summarizers.extract_hn_id at h
  cases hr : Summarizers.hnRegexMatch url.data with
  | some g =>
    rw [hr] at h
    cases h
    have := hnRegexMatch_some_ne_nil hr
    intro hcontra
    apply this
    have := congrArg String.data hcontra
    simpa using this
  | none =>
    rw [hr] at h
    cases hp : pyUrlparse url with
    | none => rw [hp] at h; cases h
    | some r =>
      rw [hp] at h
      have h' : parse_qs_first r.query "id" = some s := h
      unfold parse_qs_first at h'
      cases hfind : (parse_qsl r.query).find? (fun kv => kv.1 = "id") with
      | none => rw [hfind] at h'; cases h'
      | some kv =>
        rw [hfind] at h'
        simp only [Option.map_some'] at h'
        cases h'
        exact parse_qsl_value_ne_empty (List.mem_of_find?_eq_some hfind)

/-- Claim C8 states that every extractor returns none or a non-empty
string.  The `youtu.be` structured fallback of `extract_youtube_id` returns
`parsed.path[1:]`, which is the empty string for the bare path `/`: the
extractor returns an empty string rather than none. -/
theorem C8_counterexample_empty_id :
    Summarizers.extract_youtube_id "https://youtu.be/" = some "" := by rfl

/-- Claim C8 (amended): the extractors are total (never raise, by
construction) and return none or a string, which is always non-empty for
`extract_hn_id` and for every result produced by the regex strategies of
`extract_youtube_id` and `extract_reddit_id`; their structural fallbacks,
however, may return the empty string (`youtu.be` bare path for YouTube, an
empty fifth path segment for Reddit), which `detect_url_type` then treats
like a failed extraction. -/
theorem C8_extractors_nonempty_or_none :
    (∀ url s, Summarizers.extract_hn_id url = some s → s ≠ "") ∧
    (∀ (url : String) (g : List Char),
       Summarizers.ytRegexSearch url.data = some g → g ≠ []) ∧
    (∀ (url : String) (g : List Char),
       Summarizers.redditRegexMatch url.data = some g → g ≠ []) ∧
    Summarizers.extract_youtube_id "https://youtu.be/" = some "" ∧
    Summarizers.extract_reddit_id "https://reddit.com/r/x/comments//" = some "" := by
  refine ⟨?_, ?_, ?_, by rfl, by rfl⟩
  · intro url s h
    exact extract_hn_id_some_ne_empty h
  · intro url g h
    exact ytRegexSearch_some_ne_nil h
  · intro url g h
    exact redditRegexMatch_some_ne_nil h

/-- Witness for C8: the Hacker News extractor on a concrete URL yields a
non-empty id, and the YouTube and Reddit regex strategies yield non-empty
groups on concrete URLs. -/
theorem C8_witness :
    Summarizers.extract_hn_id "https://news.ycombinator.com/item?id=123" = some "123" ∧
    ("123" : String) ≠ "" ∧
    Summarizers.ytRegexSearch ("https://youtu.be/dQw4w9WgXcQ" : String).data =
      some ("dQw4w9WgXcQ" : String).data ∧
    (("dQw4w9WgXcQ" : String).data : List Char) ≠ [] := by
  refine ⟨by rfl, ?_, by rfl, ?_⟩
  · exact C8_extractors_nonempty_or_none.1 "https://news.ycombinator.com/item?id=123"
      "123" (by rfl)
  · exact C8_extractors_nonempty_or_none.2.1 "https://youtu.be/dQw4w9WgXcQ"
      ("dQw4w9WgXcQ" : String).data (by rfl)

/-! ## Claim C3 -/

theorem searchAt_cons_none {att : List Char → Option (List Char)} {c : Char}
    {t : List Char} (h : att (c :: t) = none) :
    Summarizers.searchAt att (c :: t) = Summarizers.searchAt att t := by
  rw [Summarizers.searchAt, h]

theorem searchAt_cons_some {att : List Char → Option (List Char)} {c : Char}
    {t g : List Char} (h : att (c :: t) = some g) :
    Summarizers.searchAt att (c :: t) = some g := by
  rw [Summarizers.searchAt, h]

theorem takeExact_append {p : Char → Bool} :
    ∀ (xs rest : List Char), xs.all p = true →
      Summarizers.takeExact p xs.length (xs ++ rest) = some (xs, rest) := by
  intro xs
  induction xs with
  | nil => intro rest _; rfl
  | cons c t ih =>
    intro rest hall
    rw [List.all_cons, Bool.and_eq_true] at hall
    rw [List.length_cons, List.cons_append, Summarizers.takeExact, if_pos hall.1,
      ih rest hall.2]
    rfl

theorem ytPat1At_v (X : List Char) :
    Summarizers.ytPat1At ('v' :: '=' :: X) =
      (Summarizers.takeExact Summarizers.isYTIdChar 11 X).map (·.1) := by
  unfold Summarizers.ytPat1At
  rw [show stripPre "v=" ('v' :: '=' :: X) = some X from by
    unfold stripPre
    norm_num [List.isPrefixOf]]

theorem ytPat1At_slash (X : List Char) :
    Summarizers.ytPat1At ('/' :: X) =
      (Summarizers.takeExact Summarizers.isYTIdChar 11 X).map (·.1) := by
  unfold Summarizers.ytPat1At
  rw [show stripPre "v=" ('/' :: X) = none from by
    unfold stripPre
    norm_num [List.isPrefixOf]
    exact fun h => absurd h (by decide)]
  rw [show stripPre "/" ('/' :: X) = some X from by
    unfold stripPre
    norm_num [List.isPrefixOf]]

theorem extract_youtube_id_of_search {url : String} {g : List Char}
    (h : Summarizers.searchAt Summarizers.ytPat1At url.data = some g) :
    Summarizers.extract_youtube_id url = some (String.mk g) := by
  unfold Summarizers.extract_youtube_id Summarizers.ytRegexSearch
  rw [h]

/-- Claim C3 states that YouTube id extraction returns the 11-character id
of a watch/embed/short-link URL regardless of which other query parameters
surround it.  The first regex `(?:v=|\/)([0-9A-Za-z_-]{11}).*` is searched
leftmost-first, so a query parameter placed before `v=` whose name ends in
`v` and whose value starts with 11 id-characters captures first: on
`watch?xv=abcdefghijk&v=dQw4w9WgXcQ` the code extracts `abcdefghijk`, not
the actual video id `dQw4w9WgXcQ`. -/
theorem C3_counterexample_preceding_parameter :
    Summarizers.extract_youtube_id
        "https://www.youtube.com/watch?xv=abcdefghijk&v=dQw4w9WgXcQ" =
      some "abcdefghijk" ∧
    ("abcdefghijk" : String) ≠ "dQw4w9WgXcQ" := by
  constructor
  · rfl
  · decide

/-- Claim C3 (amended): for every 11-character id over `[0-9A-Za-z_-]` that
immediately follows the watch `?v=` marker, the embed path, or the
`youtu.be/` short-link prefix, `extract_youtube_id` returns exactly that
id, whatever string of further query parameters follows it.  (Query
parameters placed before the id can hijack the first regex, see the
counterexample, so the claim is restricted to parameters after the id.) -/
theorem C3_extract_youtube_id_canonical_shapes :
    ∀ (id suffix : String), id.length = 11 →
      id.data.all Summarizers.isYTIdChar = true →
      (Summarizers.extract_youtube_id
          ("https://www.youtube.com/watch?v=" ++ id ++ suffix) = some id ∧
       Summarizers.extract_youtube_id
          ("https://www.youtube.com/embed/" ++ id ++ suffix) = some id ∧
       Summarizers.extract_youtube_id
          ("https://youtu.be/" ++ id ++ suffix) = some id) := by
  intro id suffix h11 hall
  have h11' : id.data.length = 11 := h11
  have hx : (Summarizers.takeExact Summarizers.isYTIdChar 11
      (id.data ++ suffix.data)).map (·.1) = some id.data := by
    rw [show (11 : Nat) = id.data.length from h11'.symm,
      takeExact_append id.data suffix.data hall]
    rfl
  refine ⟨?_, ?_, ?_⟩
  · apply extract_youtube_id_of_search
    rw [show ("https://www.youtube.com/watch?v=" ++ id ++ suffix).data
        = 'h' :: 't' :: 't' :: 'p' :: 's' :: ':' :: '/' :: '/' :: 'w' :: 'w' :: 'w' :: '.' :: 'y' :: 'o' :: 'u' ::
          't' :: 'u' :: 'b' :: 'e' :: '.' :: 'c' :: 'o' :: 'm' :: '/' :: 'w' :: 'a' :: 't' :: 'c' :: 'h' :: '?' ::
          'v' :: '=' ::(id.data ++ suffix.data) from rfl]
    repeat rw [searchAt_cons_none (by rfl)]
    exact searchAt_cons_some ((ytPat1At_v (id.data ++ suffix.data)).trans hx)
  · apply extract_youtube_id_of_search
    rw [show ("https://www.youtube.com/embed/" ++ id ++ suffix).data
        = 'h' :: 't' :: 't' :: 'p' :: 's' :: ':' :: '/' :: '/' :: 'w' :: 'w' :: 'w' :: '.' :: 'y' :: 'o' :: 'u' ::
          't' :: 'u' :: 'b' :: 'e' :: '.' :: 'c' :: 'o' :: 'm' :: '/' :: 'e' :: 'm' :: 'b' :: 'e' :: 'd' ::
          ('/' ::(id.data ++ suffix.data)) from rfl]
    repeat rw [searchAt_cons_none (by rfl)]
    exact searchAt_cons_some ((ytPat1At_slash (id.data ++ suffix.data)).trans hx)
  · apply extract_youtube_id_of_search
    rw [show ("https://youtu.be/" ++ id ++ suffix).data
        = 'h' :: 't' :: 't' :: 'p' :: 's' :: ':' :: '/' :: '/' :: 'y' :: 'o' :: 'u' :: 't' :: 'u' :: '.' :: 'b' ::
          'e' ::('/' ::(id.data ++ suffix.data)) from rfl]
    repeat rw [searchAt_cons_none (by rfl)]
    exact searchAt_cons_some ((ytPat1At_slash (id.data ++ suffix.data)).trans hx)

/-- Witness for C3: the standard id `dQw4w9WgXcQ` with a trailing
timestamp parameter on each canonical shape. -/
theorem C3_witness :
    Summarizers.extract_youtube_id
        "https://www.youtube.com/watch?v=dQw4w9WgXcQ&t=4s" = some "dQw4w9WgXcQ" ∧
    Summarizers.extract_youtube_id
        "https://www.youtube.com/embed/dQw4w9WgXcQ?t=4s" = some "dQw4w9WgXcQ" ∧
    Summarizers.extract_youtube_id
        "https://youtu.be/dQw4w9WgXcQ?t=4s" = some "dQw4w9WgXcQ" := by
  have h := C3_extract_youtube_id_canonical_shapes "dQw4w9WgXcQ" "&t=4s"
    (by decide) (by decide)
  have h2 := C3_extract_youtube_id_canonical_shapes "dQw4w9WgXcQ" "?t=4s"
    (by decide) (by decide)
  exact ⟨h.1, h2.2.1, h2.2.2⟩
